import Mathlib

/-!
Shallow embedding of the model-routing core of the repository
(`src/models/router.py`): task classification, provider-registry lookup,
model selection with primary/fallback policy, and SSE stream normalization.
Python dicts are modelled as insertion-ordered association lists; Python
exceptions as `Except String`; `json.loads` as an abstract parse collaborator
returning `Option Json`.
-/

namespace Clawdbot

/-- `listStartsWith s pat` : `s` begins with the character sequence `pat`. -/
def listStartsWith : List Char → List Char → Bool
  | _, [] => true
  | [], _ :: _ => false
  | a :: as, b :: bs => a == b && listStartsWith as bs

/-- `listHasSub s pat` : `pat` occurs contiguously somewhere inside `s`
(Python `pat in s`). -/
def listHasSub : List Char → List Char → Bool
  | [], pat => pat.isEmpty
  | s@(_ :: rest), pat => listStartsWith s pat || listHasSub rest pat

/-- Python `pat in s` (substring containment) on strings. -/
def pyIn (pat s : String) : Bool :=
  listHasSub s.toList pat.toList

/-- Python `s.lower()`; the router only compares ASCII keywords, so the
ASCII `Char.toLower` is the relevant fragment. -/
def pyLower (s : String) : String :=
  String.mk (s.toList.map Char.toLower)

/-- Python `s[n:]` for nonnegative `n` : drop the first `n` characters. -/
def pyDropChars (n : Nat) (s : String) : String :=
  String.mk (s.toList.drop n)

/-- Python `s.startswith(pat)`. -/
def pyStartswith (s pat : String) : Bool :=
  listStartsWith s.toList pat.toList

/-- Keyword list for coding detection (router.py line 34). -/
def code_keywords : List String :=
  ["code", "function", "bug", "error", "python", "javascript",
   "typescript", "html", "css", "sql", "api", "database"]

/-- Keyword list for math/reasoning detection (router.py line 39). -/
def math_keywords : List String :=
  ["calculate", "math", "solve", "equation", "logic", "reasoning",
   "proof", "algorithm"]

/-- Keyword list for creative-writing detection (router.py line 44). -/
def creative_keywords : List String :=
  ["write", "story", "poem", "creative", "essay", "blog", "article", "draft"]

/-- `ModelRouter.detect_task_type` (router.py lines 29-56). -/
def detect_task_type (message : String) : String :=
  let message_lower := pyLower message
  if code_keywords.any (fun kw => pyIn kw message_lower) then "coding"
  else if math_keywords.any (fun kw => pyIn kw message_lower) then "reasoning"
  else if creative_keywords.any (fun kw => pyIn kw message_lower) then
    "creative_writing"
  else if message.length > 4000 then "long_context"
  else if message.length < 50 && pyIn "?" message then "fast_responses"
  else "default"

/-- The classifier exactly as the spec words it (section 4.2): keyword checks
in priority order coding, reasoning, creative, then the two length rules,
then the catch-all. Written from the spec, to be compared with
`detect_task_type`. -/
def classifySpec (text : String) : String :=
  if code_keywords.any (fun kw => pyIn kw (pyLower text)) then "coding"
  else if math_keywords.any (fun kw => pyIn kw (pyLower text)) then "reasoning"
  else if creative_keywords.any (fun kw => pyIn kw (pyLower text)) then
    "creative_writing"
  else if text.length > 4000 then "long_context"
  else if text.length < 50 && pyIn "?" text then "fast_responses"
  else "default"

/-- The six task categories of the data model. -/
def allCategories : List String :=
  ["coding", "reasoning", "creative_writing", "long_context",
   "fast_responses", "default"]

/-- First-match lookup in an insertion-ordered association list (the Python
dict access `d[k]` / `d.get(k)`; Python dicts preserve insertion order). -/
def alookup {α : Type} : List (String × α) → String → Option α
  | [], _ => none
  | (k, v) :: rest, key => if k == key then some v else alookup rest key

/-- A model entry in a provider catalog: the validated shape of the YAML
configuration (section 3 of the spec): full model identifier plus an optional
max-token cap. -/
structure ModelConfig where
  id : String
  max_tokens : Option Nat
  deriving Repr, DecidableEq

/-- A provider entry of the configuration: endpoint, credential key, and the
insertion-ordered model catalog (catalog key, model entry). -/
structure ProviderConfig where
  base_url : String
  api_key_env : String
  models : List (String × ModelConfig)
  deriving Repr, DecidableEq

/-- A `task_routing` entry; both keys are optional in the YAML, and
`routing.get` supplies the default model identifier when a key is absent
(router.py lines 69-70). -/
structure TaskRoute where
  primary : Option String
  fallback : Option String
  deriving Repr, DecidableEq

/-- The state a `ModelRouter` holds after `__init__` (router.py lines 8-13):
`default_model`, the insertion-ordered `providers` dict, `task_routing`, and
the `auto_switch.enabled` flag (`none` when the key is missing, read with
default `True` at line 63). -/
structure RouterState where
  default_model : String
  providers : List (String × ProviderConfig)
  task_routing : List (String × TaskRoute)
  auto_switch_enabled : Option Bool
  deriving Repr, DecidableEq

/-- The dict `_get_model_config` returns: the provider tag, the provider
entry spliced in as `provider_config`, and the model entry's fields. -/
structure ResolvedModel where
  provider : String
  provider_config : ProviderConfig
  id : String
  max_tokens : Option Nat
  deriving Repr, DecidableEq

/-- The openrouter catalog scan (router.py lines 93-94): first entry whose
`id` field or catalog key equals `model_id`. -/
def findOpenrouterModel (models : List (String × ModelConfig))
    (model_id : String) : Option ModelConfig :=
  match models with
  | [] => none
  | (key, config) :: rest =>
    if config.id == model_id || key == model_id then some config
    else findOpenrouterModel rest model_id

/-- `ModelRouter._get_model_config` (router.py lines 78-101): the moonshot
catalog is checked first, by catalog key only; then the openrouter catalog,
by `id` field or catalog key; otherwise `ValueError`. -/
def get_model_config (r : RouterState) (model_id : String) :
    Except String ResolvedModel :=
  let fromMoonshot : Option ResolvedModel :=
    match alookup r.providers "moonshot" with
    | some p =>
      match alookup p.models model_id with
      | some m => some ⟨"moonshot", p, m.id, m.max_tokens⟩
      | none => none
    | none => none
  match fromMoonshot with
  | some res => Except.ok res
  | none =>
    match alookup r.providers "openrouter" with
    | some p =>
      match findOpenrouterModel p.models model_id with
      | some m => Except.ok ⟨"openrouter", p, m.id, m.max_tokens⟩
      | none => Except.error ("Model not found: " ++ model_id)
    | none => Except.error ("Model not found: " ++ model_id)

/-- Python truthiness of an `Optional[str]`: `None` and `""` are falsy
(the `if preferred_model:` test at router.py line 60). -/
def pyTruthyStr : Option String → Bool
  | none => false
  | some s => !(s == "")

/-- `ModelRouter.select_model` (router.py lines 58-76). The bare `except:` at
line 75 catches the `ValueError` of the primary lookup and retries once with
the fallback identifier. -/
def select_model (r : RouterState) (message : String)
    (preferred_model : Option String) : Except String ResolvedModel :=
  if pyTruthyStr preferred_model then
    get_model_config r (preferred_model.getD "")
  else if !(r.auto_switch_enabled.getD true) then
    get_model_config r r.default_model
  else
    let task_type := detect_task_type message
    let routing := (alookup r.task_routing task_type).getD ⟨none, none⟩
    let primary_id := routing.primary.getD r.default_model
    let fallback_id := routing.fallback.getD r.default_model
    match get_model_config r primary_id with
    | Except.ok c => Except.ok c
    | Except.error _ => get_model_config r fallback_id

/-- JSON values, as produced by `json.loads`: objects keep field order as an
association list. -/
inductive Json where
  | null : Json
  | bool : Bool → Json
  | num : Int → Json
  | str : String → Json
  | arr : List Json → Json
  | obj : List (String × Json) → Json

/-- `ModelRouter._extract_content` (router.py lines 216-224), with the
`json.loads` call abstracted as `parse` (success: `some` value; failure or
any exception on the subsequent field accesses is swallowed by the bare
`except:` into `""`). The Python expression is
`parsed["choices"][0].get("delta", {}).get("content", "")`: it needs
`parsed` to be an object with a `choices` field holding a nonempty array
whose head is an object; a `delta` field must be absent or an object; every
other shape raises and is caught. -/
def extract_content (parse : String → Option Json) (data : String) : Json :=
  match parse data with
  | some (Json.obj fields) =>
    match alookup fields "choices" with
    | some (Json.arr (Json.obj choice0 :: _)) =>
      match alookup choice0 "delta" with
      | some (Json.obj delta) => (alookup delta "content").getD (Json.str "")
      | some _ => Json.str ""
      | none => Json.str ""
    | _ => Json.str ""
  | _ => Json.str ""

/-- The SSE consumption loop shared by `_call_moonshot` (router.py lines
151-156) and `_call_openrouter` (lines 200-205): only lines starting with
literal marker `"data: "` are considered; the payload is the line minus its
first six characters; payload `"[DONE]"` breaks out of the loop; any other
payload yields one extracted fragment. Returns the fragment sequence the
generator yields. -/
def processStreamLines (parse : String → Option Json) :
    List String → List Json
  | [] => []
  | line :: rest =>
    if pyStartswith line "data: " then
      let data := pyDropChars 6 line
      if data == "[DONE]" then []
      else extract_content parse data :: processStreamLines parse rest
    else processStreamLines parse rest

/-- The branch taken by the provider dispatch in `chat_completion`
(router.py lines 113-118): `if provider == "moonshot" ... elif provider ==
"openrouter" ...`, and with no `else` the generator falls through yielding
nothing. -/
inductive DispatchBranch where
  | moonshot : DispatchBranch
  | openrouter : DispatchBranch
  | fallthrough : DispatchBranch
  deriving Repr, DecidableEq

/-- Which branch `chat_completion` takes for a provider tag. -/
def dispatchBranch (provider : String) : DispatchBranch :=
  if provider == "moonshot" then DispatchBranch.moonshot
  else if provider == "openrouter" then DispatchBranch.openrouter
  else DispatchBranch.fallthrough

/-! Concrete fixtures used by the witnesses and counterexamples below.
They follow the shape the YAML configuration documented in the repository
gives: a moonshot provider keyed by model name and an openrouter provider
whose entries carry slash-qualified `id` values. -/

def mcA : ModelConfig := ⟨"kimi-k2.5", some 4096⟩

def provA : ProviderConfig :=
  ⟨"https://api.moonshot.ai/v1", "MOONSHOT_API_KEY", [("kimi-k2.5", mcA)]⟩

def provB : ProviderConfig :=
  ⟨"https://openrouter.ai/api/v1", "OPENROUTER_API_KEY",
   [("claude", ⟨"anthropic/claude-sonnet", none⟩)]⟩

def rA : RouterState :=
  ⟨"kimi-k2.5", [("moonshot", provA), ("openrouter", provB)],
   [("coding", ⟨some "claude", some "kimi-k2.5"⟩)], some true⟩

/-- Registry where openrouter is registered before moonshot and both
catalogs use the same key `"m"`. -/
def orProvC2 : ProviderConfig :=
  ⟨"https://openrouter.ai/api/v1", "OPENROUTER_API_KEY",
   [("m", ⟨"openrouter/m", none⟩)]⟩

/-- Moonshot provider for the shared-key registry. -/
def msProvC2 : ProviderConfig :=
  ⟨"https://api.moonshot.ai/v1", "MOONSHOT_API_KEY",
   [("m", ⟨"moonshot-m", none⟩)]⟩

/-- The shared-key registry: configuration order is openrouter first. -/
def registryC2 : RouterState :=
  ⟨"m", [("openrouter", orProvC2), ("moonshot", msProvC2)], [], none⟩

/-- A moonshot catalog whose entry is registered under key `"k"` but whose
full model identifier is `"moonshot-v1-8k"`. -/
def msProvC3 : ProviderConfig :=
  ⟨"https://api.moonshot.ai/v1", "MOONSHOT_API_KEY",
   [("k", ⟨"moonshot-v1-8k", none⟩)]⟩

/-- Registry holding only the moonshot provider above. -/
def registryC3 : RouterState :=
  ⟨"k", [("moonshot", msProvC3)], [], none⟩

/-- Registry with auto-switch disabled. -/
def registryOff : RouterState :=
  ⟨"kimi-k2.5", [("moonshot", provA)], [("coding", ⟨some "claude", none⟩)],
   some false⟩

/-- Registry whose coding route points at a missing primary with a present
fallback. -/
def registryFB : RouterState :=
  ⟨"kimi-k2.5", [("moonshot", provA)],
   [("coding", ⟨some "missing-model", some "kimi-k2.5"⟩)], some true⟩

/-- A concrete stand-in for `json.loads` used by witnesses: one well-formed
frame payload, one payload that parses to an object with no fields at all,
everything else a parse failure. -/
def parseW : String → Option Json := fun s =>
  if s == "good" then
    some (Json.obj
      [("choices", Json.arr
        [Json.obj [("delta", Json.obj [("content", Json.str "hi")])]])])
  else if s == "empty" then some (Json.obj [])
  else none

end Clawdbot

namespace Clawdbot

example : detect_task_type "fix this bug?" = "coding" := by decide
example : detect_task_type "Is this ok?" = "fast_responses" := by decide
example : detect_task_type "hello there friend" = "default" := by decide
example : (get_model_config rA "kimi-k2.5").toOption.map (fun c => c.provider) = some "moonshot" := by decide
example : (get_model_config rA "anthropic/claude-sonnet").toOption.map (fun c => c.provider) = some "openrouter" := by decide
example : get_model_config rA "nope" = Except.error "Model not found: nope" := by rfl
example : (select_model rA "fix this bug" none).toOption.map (fun c => c.id) = some "anthropic/claude-sonnet" := by decide
example : select_model rA "hello" (some "") = select_model rA "hello" none := by rfl

/-! Helper lemmas shared by the claim theorems. -/

theorem listStartsWith_append (p rest : List Char) :
    listStartsWith (p ++ rest) p = true := by
  induction p with
  | nil => cases rest <;> rfl
  | cons a p ih => simp [listStartsWith, ih]

theorem pyStartswith_marker (s : String) :
    pyStartswith ("data: " ++ s) "data: " = true := by
  show listStartsWith ("data: " ++ s).data "data: ".data = true
  rw [String.data_append]
  exact listStartsWith_append _ _

theorem pyDropChars_marker (s : String) :
    pyDropChars 6 ("data: " ++ s) = s := by
  show String.mk (List.drop 6 ("data: " ++ s).data) = s
  rw [String.data_append]
  have h6 : ("data: ".data).length = 6 := by decide
  rw [← h6, List.drop_left]

theorem get_model_config_moonshot_hit (r : RouterState) (mid : String)
    (p : ProviderConfig) (m : ModelConfig)
    (hp : alookup r.providers "moonshot" = some p)
    (hm : alookup p.models mid = some m) :
    get_model_config r mid = Except.ok ⟨"moonshot", p, m.id, m.max_tokens⟩ := by
  simp only [get_model_config, hp, hm]

theorem findOpenrouterModel_isSome_of_mem :
    ∀ (models : List (String × ModelConfig)) (mid k : String) (m : ModelConfig),
      (k, m) ∈ models → (m.id = mid ∨ k = mid) →
      (findOpenrouterModel models mid).isSome = true := by
  intro models mid
  induction models with
  | nil => intro k m hmem _; cases hmem
  | cons hd tl ih =>
    obtain ⟨k0, m0⟩ := hd
    intro k m hmem hid
    simp only [findOpenrouterModel]
    by_cases hc : (m0.id == mid || k0 == mid) = true
    · simp [hc]
    · rw [Bool.not_eq_true] at hc
      rcases List.mem_cons.mp hmem with heq | htl
      · exfalso
        obtain ⟨h1, h2⟩ := Prod.mk.injEq .. |>.mp heq
        subst h1; subst h2
        rcases hid with h | h <;> simp [h] at hc
      · simp only [hc, Bool.false_eq_true, if_false]
        exact ih k m htl hid

theorem select_model_none_auto_on (r : RouterState) (message : String)
    (h : r.auto_switch_enabled ≠ some false) :
    select_model r message none =
      (match get_model_config r
          (((alookup r.task_routing (detect_task_type message)).getD
            ⟨none, none⟩).primary.getD r.default_model) with
       | Except.ok c => Except.ok c
       | Except.error _ =>
         get_model_config r
           (((alookup r.task_routing (detect_task_type message)).getD
             ⟨none, none⟩).fallback.getD r.default_model)) := by
  have hb : r.auto_switch_enabled.getD true = true := by
    cases ha : r.auto_switch_enabled with
    | none => rfl
    | some b =>
      cases b with
      | false => exact absurd ha h
      | true => rfl
  simp only [select_model, pyTruthyStr, hb, Bool.not_true, Bool.false_eq_true,
    if_false]

/-! Claim theorems. -/

/-- C1: the task classifier is total — it returns exactly one of the six
categories — and agrees pointwise with the spec's priority-ordered decision
procedure; in particular any message containing a coding keyword (after
lowercasing) classifies as `coding` regardless of length or question marks. -/
theorem claim_C1_classifier_total_and_priority :
    ∀ m : String,
      detect_task_type m = classifySpec m ∧
      detect_task_type m ∈ allCategories ∧
      (code_keywords.any (fun kw => pyIn kw (pyLower m)) = true →
        detect_task_type m = "coding") := by
  intro m
  refine ⟨rfl, ?_, ?_⟩
  · simp only [detect_task_type, allCategories]
    split_ifs <;> simp
  · intro h
    simp [detect_task_type, h]

theorem claim_C1_witness :
    detect_task_type "fix this bug?" = classifySpec "fix this bug?" ∧
    detect_task_type "fix this bug?" ∈ allCategories ∧
    detect_task_type "fix this bug?" = "coding" := by
  have h := claim_C1_classifier_total_and_priority "fix this bug?"
  exact ⟨h.1, h.2.1, h.2.2 (by decide)⟩

/-- C2 counterexample: in a registry whose configuration registers
openrouter first and moonshot second, both under the model key `"m"`, lookup
of `"m"` returns the moonshot entry — the first registered provider
(openrouter) does not win, so lookup order is not fixed by registration
order. -/
theorem claim_C2_counterexample :
    registryC2.providers.map Prod.fst = ["openrouter", "moonshot"] ∧
    (alookup orProvC2.models "m").isSome = true ∧
    (alookup msProvC2.models "m").isSome = true ∧
    (get_model_config registryC2 "m").toOption.map ResolvedModel.provider =
      some "moonshot" :=
  ⟨by decide, by decide, by decide, by decide⟩

/-- C2 amended: registry lookup is deterministic with a hard-coded provider
order — the moonshot catalog is always examined first, then openrouter — so
whenever the moonshot provider registers the queried key, moonshot wins,
regardless of the order providers appear in the configuration. -/
theorem claim_C2_moonshot_first (r : RouterState) (mid : String)
    (p : ProviderConfig) (m : ModelConfig)
    (hp : alookup r.providers "moonshot" = some p)
    (hm : alookup p.models mid = some m) :
    get_model_config r mid = Except.ok ⟨"moonshot", p, m.id, m.max_tokens⟩ :=
  get_model_config_moonshot_hit r mid p m hp hm

theorem claim_C2_witness :
    get_model_config registryC2 "m" =
      Except.ok ⟨"moonshot", msProvC2, "moonshot-m", none⟩ :=
  claim_C2_moonshot_first registryC2 "m" msProvC2 ⟨"moonshot-m", none⟩
    (by decide) (by decide)

/-- C3 counterexample: a moonshot model registered under catalog key `"k"`
with full identifier `"moonshot-v1-8k"` is NOT found when queried by that
full identifier — the moonshot branch matches catalog keys only. -/
theorem claim_C3_counterexample :
    alookup registryC3.providers "moonshot" = some msProvC3 ∧
    alookup msProvC3.models "k" = some ⟨"moonshot-v1-8k", none⟩ ∧
    get_model_config registryC3 "moonshot-v1-8k" =
      Except.error "Model not found: moonshot-v1-8k" :=
  ⟨by decide, by decide, by rfl⟩

/-- C3 amended: lookup succeeds for a moonshot model when the queried
identifier matches its catalog key, and for an openrouter model when it
matches either the full model identifier value or the catalog key. -/
theorem claim_C3_lookup_success_amended :
    ∀ (r : RouterState) (mid : String),
      ((∃ p, alookup r.providers "moonshot" = some p ∧
         (alookup p.models mid).isSome = true) ∨
       (∃ p, alookup r.providers "openrouter" = some p ∧
         ∃ k m, (k, m) ∈ p.models ∧ (m.id = mid ∨ k = mid))) →
      (get_model_config r mid).isOk = true := by
  intro r mid h
  rcases h with ⟨p, hp, hsome⟩ | ⟨p, hp, k, m, hmem, hid⟩
  · obtain ⟨m, hm⟩ := Option.isSome_iff_exists.mp hsome
    rw [get_model_config_moonshot_hit r mid p m hp hm]
    rfl
  · obtain ⟨m2, hm2⟩ := Option.isSome_iff_exists.mp
      (findOpenrouterModel_isSome_of_mem p.models mid k m hmem hid)
    cases h1 : alookup r.providers "moonshot" with
    | none => simp [get_model_config, h1, hp, hm2, Except.isOk, Except.toBool]
    | some p0 =>
      cases h2 : alookup p0.models mid with
      | some mm => simp [get_model_config, h1, h2, Except.isOk, Except.toBool]
      | none => simp [get_model_config, h1, h2, hp, hm2, Except.isOk, Except.toBool]

theorem claim_C3_witness :
    (get_model_config registryC3 "k").isOk = true :=
  claim_C3_lookup_success_amended registryC3 "k"
    (Or.inl ⟨msProvC3, by decide, by decide⟩)

/-- C4: a non-empty explicit override is resolved directly against the
registry — selection equals plain registry lookup of the override, so an
unregistered override fails with the model-not-found error and no fallback
is attempted; and the lookup reads only the provider registry, so the
routing policy, the default model and the auto-switch flag cannot change
the outcome. -/
theorem claim_C4_override_no_fallback :
    ∀ (r : RouterState) (message s : String), s ≠ "" →
      select_model r message (some s) = get_model_config r s ∧
      (∀ (d : String) (t : List (String × TaskRoute)) (a : Option Bool),
        get_model_config ⟨d, r.providers, t, a⟩ s = get_model_config r s) := by
  intro r message s hs
  constructor
  · have ht : pyTruthyStr (some s) = true := by
      simp [pyTruthyStr, hs]
    simp [select_model, ht]
  · intro d t a
    rfl

theorem claim_C4_witness :
    "missing-model" ≠ "" ∧
    select_model registryFB "any message" (some "missing-model") =
      get_model_config registryFB "missing-model" := by
  have h := claim_C4_override_no_fallback registryFB "any message"
    "missing-model" (by decide)
  exact ⟨by decide, h.1⟩

/-- C5: with auto-switch disabled and no override, selection is registry
lookup of the configured default model identifier, for every input text —
classification cannot affect the result, and an unregistered default makes
the call fail with the model-not-found error. -/
theorem claim_C5_auto_off_default :
    ∀ (r : RouterState) (message : String),
      r.auto_switch_enabled = some false →
      select_model r message none = get_model_config r r.default_model := by
  intro r message h
  simp [select_model, pyTruthyStr, h]

theorem claim_C5_witness :
    registryOff.auto_switch_enabled = some false ∧
    select_model registryOff "write a poem about math?" none =
      get_model_config registryOff "kimi-k2.5" :=
  ⟨by decide,
   claim_C5_auto_off_default registryOff "write a poem about math?" (by decide)⟩

/-- C6: with auto-switch enabled and no override, selection resolves the
routing entry for the classified category — an absent entry (or absent key)
defaulting to the default model identifier — returning the primary's
configuration when the primary resolves, and otherwise exactly the result of
one fallback lookup: the fallback's configuration when it resolves, the
model-not-found error when both fail. -/
theorem claim_C6_primary_fallback_two_strike :
    ∀ (r : RouterState) (message : String) (pid fid : String),
      r.auto_switch_enabled ≠ some false →
      pid = ((alookup r.task_routing (detect_task_type message)).getD
        ⟨none, none⟩).primary.getD r.default_model →
      fid = ((alookup r.task_routing (detect_task_type message)).getD
        ⟨none, none⟩).fallback.getD r.default_model →
      (∀ c, get_model_config r pid = Except.ok c →
        select_model r message none = Except.ok c) ∧
      (∀ e, get_model_config r pid = Except.error e →
        select_model r message none = get_model_config r fid) := by
  intro r message pid fid h hpid hfid
  subst hpid; subst hfid
  constructor
  · intro c hc
    rw [select_model_none_auto_on r message h, hc]
  · intro e he
    rw [select_model_none_auto_on r message h, he]

theorem claim_C6_witness :
    get_model_config registryFB "missing-model" =
      Except.error "Model not found: missing-model" ∧
    select_model registryFB "fix this bug" none =
      get_model_config registryFB "kimi-k2.5" := by
  have h := claim_C6_primary_fallback_two_strike registryFB "fix this bug"
    "missing-model" "kimi-k2.5" (by decide) (by decide) (by decide)
  exact ⟨by rfl, h.2 "Model not found: missing-model" (by rfl)⟩

/-- C7: in the streaming loop a line contributes only when it carries the
literal marker; a marked line whose payload is the sentinel terminates the
sequence with no fragment for itself and none for any later line — for every
parse collaborator and every line sequence. -/
theorem claim_C7_done_sentinel_terminates :
    ∀ (parse : String → Option Json) (pre post : List String),
      processStreamLines parse (pre ++ "data: [DONE]" :: post) =
        processStreamLines parse pre ∧
      (∀ (l : String) (rest : List String),
        pyStartswith l "data: " = false →
        processStreamLines parse (l :: rest) = processStreamLines parse rest) := by
  intro parse pre post
  constructor
  · induction pre with
    | nil => rfl
    | cons l pre ih =>
      simp only [List.cons_append, processStreamLines]
      split_ifs <;> simp [ih]
  · intro l rest hl
    simp [processStreamLines, hl]

theorem claim_C7_witness :
    processStreamLines (fun _ => none)
        (["ignored"] ++ "data: [DONE]" :: ["data: x"]) =
      processStreamLines (fun _ => none) ["ignored"] ∧
    processStreamLines (fun _ => none) ("ignored" :: ["data: [DONE]"]) =
      processStreamLines (fun _ => none) ["data: [DONE]"] := by
  have h := claim_C7_done_sentinel_terminates (fun _ => none) ["ignored"]
    ["data: x"]
  exact ⟨h.1, h.2 "ignored" ["data: [DONE]"] (by decide)⟩

/-- C8: frame-content extraction is a total function of the parse outcome:
when the payload parses to an object whose choices array starts with an
object carrying a delta object with a content field, the fragment is that
field's value; when parsing fails, or the payload parses but the nested
choices[0].delta.content field is absent at any level (no `choices` field,
no `delta` field, or no `content` field), the fragment is the empty string;
and a non-sentinel frame — parseable or not — never terminates the stream:
the following lines are still processed. -/
theorem claim_C8_extraction_best_effort :
    ∀ (parse : String → Option Json) (data : String) (rest : List String)
      (fields choice0 delta : List (String × Json)) (tl : List Json) (v : Json),
      (parse data = none → extract_content parse data = Json.str "") ∧
      (parse data = some (Json.obj fields) →
        alookup fields "choices" = none →
        extract_content parse data = Json.str "") ∧
      (parse data = some (Json.obj fields) →
        alookup fields "choices" = some (Json.arr (Json.obj choice0 :: tl)) →
        alookup choice0 "delta" = none →
        extract_content parse data = Json.str "") ∧
      (parse data = some (Json.obj fields) →
        alookup fields "choices" = some (Json.arr (Json.obj choice0 :: tl)) →
        alookup choice0 "delta" = some (Json.obj delta) →
        alookup delta "content" = none →
        extract_content parse data = Json.str "") ∧
      (parse data = some (Json.obj fields) →
        alookup fields "choices" = some (Json.arr (Json.obj choice0 :: tl)) →
        alookup choice0 "delta" = some (Json.obj delta) →
        alookup delta "content" = some v →
        extract_content parse data = v) ∧
      (data ≠ "[DONE]" →
        processStreamLines parse (("data: " ++ data) :: rest) =
          extract_content parse data :: processStreamLines parse rest) := by
  intro parse data rest fields choice0 delta tl v
  refine ⟨?_, ?_, ?_, ?_, ?_, ?_⟩
  · intro h
    simp [extract_content, h]
  · intro h1 h2
    simp [extract_content, h1, h2]
  · intro h1 h2 h3
    simp [extract_content, h1, h2, h3]
  · intro h1 h2 h3 h4
    simp [extract_content, h1, h2, h3, h4]
  · intro h1 h2 h3 h4
    simp [extract_content, h1, h2, h3, h4]
  · intro hne
    have hbeq : (data == "[DONE]") = false := beq_eq_false_iff_ne.mpr hne
    simp only [processStreamLines, pyStartswith_marker, pyDropChars_marker,
      hbeq, if_true, Bool.false_eq_true, if_false]

theorem claim_C8_witness :
    parseW "bad" = none ∧
    parseW "empty" = some (Json.obj []) ∧
    extract_content parseW "empty" = Json.str "" ∧
    extract_content parseW "good" = Json.str "hi" ∧
    processStreamLines parseW (("data: " ++ "bad") :: ["data: good"]) =
      extract_content parseW "bad" :: processStreamLines parseW ["data: good"] := by
  have hempty := (claim_C8_extraction_best_effort parseW "empty" []
    [] [] [] [] Json.null).2.1
  have hgood := (claim_C8_extraction_best_effort parseW "good" []
    [("choices", Json.arr
      [Json.obj [("delta", Json.obj [("content", Json.str "hi")])]])]
    [("delta", Json.obj [("content", Json.str "hi")])]
    [("content", Json.str "hi")] [] (Json.str "hi")).2.2.2.2.1
  have hbad := (claim_C8_extraction_best_effort parseW "bad" ["data: good"]
    [] [] [] [] Json.null).2.2.2.2.2
  exact ⟨by rfl, by rfl, hempty (by rfl) (by rfl),
    hgood (by rfl) (by rfl) (by rfl) (by rfl), hbad (by decide)⟩

/-- C9: an explicit override equal to the empty string is falsy at the
`if preferred_model:` test, so selection with it is identical to selection
with no override at all, for every registry and message. -/
theorem claim_C9_empty_override_ignored :
    ∀ (r : RouterState) (message : String),
      select_model r message (some "") = select_model r message none := by
  intro r message
  rfl

/-- C10: every configuration registry lookup returns successfully is tagged
with provider `"moonshot"` or `"openrouter"`, so the string-matched dispatch
in `chat_completion` never falls through both branches for a successfully
selected model. -/
theorem claim_C10_provider_dispatch_exhaustive :
    ∀ (r : RouterState) (mid : String) (c : ResolvedModel),
      get_model_config r mid = Except.ok c →
      (c.provider = "moonshot" ∨ c.provider = "openrouter") ∧
      dispatchBranch c.provider ≠ DispatchBranch.fallthrough := by
  intro r mid c h
  have hp : c.provider = "moonshot" ∨ c.provider = "openrouter" := by
    simp only [get_model_config] at h
    split at h
    next res heq =>
      injection h with h
      subst h
      split at heq
      next p hp =>
        split at heq
        next m hm =>
          injection heq with heq
          rw [← heq]
          left
          rfl
        next => cases heq
      next => cases heq
    next heq =>
      split at h
      next p hp =>
        split at h
        next m hm =>
          injection h with h
          rw [← h]
          right
          rfl
        next => cases h
      next => cases h
  refine ⟨hp, ?_⟩
  rcases hp with h1 | h1 <;> simp [dispatchBranch, h1]

theorem claim_C10_witness :
    ((ResolvedModel.mk "moonshot" provA "kimi-k2.5" (some 4096)).provider =
        "moonshot" ∨
     (ResolvedModel.mk "moonshot" provA "kimi-k2.5" (some 4096)).provider =
        "openrouter") ∧
    dispatchBranch
        (ResolvedModel.mk "moonshot" provA "kimi-k2.5" (some 4096)).provider ≠
      DispatchBranch.fallthrough :=
  claim_C10_provider_dispatch_exhaustive rA "kimi-k2.5"
    ⟨"moonshot", provA, "kimi-k2.5", some 4096⟩ (by rfl)

end Clawdbot
